import Mathlib

/-!
Verification development for the Telegram Ads marketplace repository.

The embedding below is a shallow model of the coordination core:
* the persistence API of src/main.py (users, channels, orders),
* the bot-side handlers of src/bot_handlers.py (admin gate, channel
  registration, order approval/rejection/cancellation).

Python floats (price columns) are modelled as exact rationals; SQLAlchemy
tables are modelled as lists of records with explicit auto-increment
counters; an HTTP response is modelled with `Except ApiError`.
Peripheral tables (reviews, discounts, analytics, packages, stats) are not
touched by any property below and are omitted from the store.
-/

namespace AdsMarket

/-- A row of the `users` table (src/models.py, class User).
Rating/spend columns are omitted: nothing below reads them. -/
structure User where
  id : Nat
  telegram_id : Int
  username : Option String
  first_name : Option String
  is_channel_owner : Bool
  is_advertiser : Bool
deriving Repr, DecidableEq

/-- A row of the `channels` table (src/models.py, class Channel).
The JSON `pricing` column is an insertion-ordered mapping from ad-type
name to price, modelled as an association list. -/
structure Channel where
  id : Nat
  owner_id : Nat
  telegram_channel_id : Int
  channel_title : String
  channel_username : Option String
  pricing : List (String × Rat)
  status : String
deriving Repr, DecidableEq

/-- A row of the `orders` table (src/models.py, class Order).
Timestamps are kept as the ISO strings the API receives. -/
structure Order where
  id : Nat
  buyer_id : Nat
  channel_id : Nat
  ad_type : String
  price : Rat
  status : String
  payment_method : Option String
  payment_transaction_id : Option String
  creative_content : Option String
  creative_media_id : Option String
  post_url : Option String
  notes : Option String
  paid_at : Option String
  completed_at : Option String
deriving Repr, DecidableEq

/-- The persistent store: the three tables the coordination core touches,
with explicit auto-increment counters for the primary keys. -/
structure DB where
  users : List User
  channels : List Channel
  orders : List Order
  next_user_id : Nat
  next_channel_id : Nat
  next_order_id : Nat
deriving Repr, DecidableEq

/-- An HTTPException raised by a src/main.py endpoint:
`notFound` is status 404, `badRequest` is status 400. -/
inductive ApiError where
  | notFound (detail : String)
  | badRequest (detail : String)
deriving Repr, DecidableEq

/-- Did the API call succeed (HTTP 200)? -/
def is_ok {α : Type} (e : Except ApiError α) : Bool :=
  match e with
  | .ok _ => true
  | .error _ => false

/-- `db.query(User).filter(User.telegram_id == t).first()`. -/
def find_user (db : DB) (t : Int) : Option User :=
  db.users.find? (fun u => u.telegram_id == t)

/-- `db.query(Channel).filter(Channel.id == i).first()`. -/
def find_channel (db : DB) (i : Nat) : Option Channel :=
  db.channels.find? (fun c => c.id == i)

/-- `db.query(Order).filter(Order.id == i).first()`. -/
def find_order (db : DB) (i : Nat) : Option Order :=
  db.orders.find? (fun o => o.id == i)

/-- POST /users/ (src/main.py, create_or_get_user): return the stored row
when the telegram id is known, otherwise insert a fresh row with the
given username/first name and default role flags. -/
def create_or_get_user (telegram_id : Int) (username first_name : String)
    (db : DB) : DB × User :=
  match find_user db telegram_id with
  | some u => (db, u)
  | none =>
      let u : User :=
        { id := db.next_user_id
          telegram_id := telegram_id
          username := some username
          first_name := some first_name
          is_channel_owner := false
          is_advertiser := false }
      ({ db with users := db.users ++ [u], next_user_id := db.next_user_id + 1 }, u)

/-- The `User(telegram_id=...)` rows created inline by create_channel and
create_order: no username or first name is supplied. -/
def fresh_bare_user (db : DB) (telegram_id : Int) : User :=
  { id := db.next_user_id
    telegram_id := telegram_id
    username := none
    first_name := none
    is_channel_owner := false
    is_advertiser := false }

/-- The get-or-create preamble shared by create_channel and create_order. -/
def get_or_create_bare (telegram_id : Int) (db : DB) : DB × User :=
  match find_user db telegram_id with
  | some u => (db, u)
  | none =>
      let u := fresh_bare_user db telegram_id
      ({ db with users := db.users ++ [u], next_user_id := db.next_user_id + 1 }, u)

/-- Persist a role-flag change on one user row
(`owner.is_channel_owner = True; db.commit()`). -/
def set_user (db : DB) (u : User) : DB :=
  { db with users := db.users.map (fun x => if x.id == u.id then u else x) }

/-- GET /channels/owner/{telegram_id} (src/main.py, get_owner_channels):
an unknown telegram id yields an empty list, not a 404. -/
def get_owner_channels (telegram_id : Int) (db : DB) :
    Except ApiError (List Channel) :=
  match find_user db telegram_id with
  | none => .ok []
  | some u => .ok (db.channels.filter (fun c => c.owner_id == u.id))

/-- GET /orders/user/{telegram_id} (src/main.py, get_user_orders).
The source orders by `created_at` descending; rows are inserted in
creation order with a monotone clock, so that ordering is the reverse of
table order. An unknown telegram id yields an empty list, not a 404. -/
def get_user_orders (telegram_id : Int) (db : DB) :
    Except ApiError (List Order) :=
  match find_user db telegram_id with
  | none => .ok []
  | some u => .ok ((db.orders.filter (fun o => o.buyer_id == u.id)).reverse)

/-- The JSON body of POST /channels/. -/
structure ChannelRequest where
  owner_telegram_id : Int
  telegram_channel_id : Int
  channel_title : String
  channel_username : Option String
  pricing : List (String × Rat)
deriving Repr, DecidableEq

/-- The owner preamble of create_channel (src/main.py:251-261):
get-or-create the owner row, then commit is_channel_owner when unset. -/
def ensure_channel_owner (telegram_id : Int) (db : DB) : DB × User :=
  let p := get_or_create_bare telegram_id db
  if p.2.is_channel_owner then p
  else (set_user p.1 { p.2 with is_channel_owner := true },
        { p.2 with is_channel_owner := true })

/-- The buyer preamble of create_order (src/main.py:396-406):
get-or-create the buyer row, then commit is_advertiser when unset. -/
def ensure_advertiser (telegram_id : Int) (db : DB) : DB × User :=
  let p := get_or_create_bare telegram_id db
  if p.2.is_advertiser then p
  else (set_user p.1 { p.2 with is_advertiser := true },
        { p.2 with is_advertiser := true })

/-- The channel row create_channel inserts. -/
def channel_row (req : ChannelRequest) (db2 : DB) (owner : User) : Channel :=
  { id := db2.next_channel_id
    owner_id := owner.id
    telegram_channel_id := req.telegram_channel_id
    channel_title := req.channel_title
    channel_username := req.channel_username
    pricing := req.pricing
    status := "active" }

/-- POST /channels/ (src/main.py, create_channel): get-or-create the owner
and set its owner flag (both committed before any further check), reject a
duplicate telegram_channel_id with a 400, otherwise insert the channel row
with the supplied pricing as given and status "active".
(The ChannelStats row it also inserts is not modelled: no property below
reads statistics.) -/
def create_channel (req : ChannelRequest) (db : DB) :
    DB × Except ApiError Channel :=
  match (ensure_channel_owner req.owner_telegram_id db).1.channels.find?
      (fun c => c.telegram_channel_id == req.telegram_channel_id) with
  | some _ => ((ensure_channel_owner req.owner_telegram_id db).1,
      .error (.badRequest "Channel already exists"))
  | none =>
      ({ (ensure_channel_owner req.owner_telegram_id db).1 with
          channels := (ensure_channel_owner req.owner_telegram_id db).1.channels ++
            [channel_row req (ensure_channel_owner req.owner_telegram_id db).1
              (ensure_channel_owner req.owner_telegram_id db).2]
          next_channel_id :=
            (ensure_channel_owner req.owner_telegram_id db).1.next_channel_id + 1 },
       .ok (channel_row req (ensure_channel_owner req.owner_telegram_id db).1
         (ensure_channel_owner req.owner_telegram_id db).2))

/-- The JSON body of POST /orders/. -/
structure OrderRequest where
  buyer_telegram_id : Int
  channel_id : Nat
  ad_type : String
  price : Rat
deriving Repr, DecidableEq

/-- The order row create_order inserts. -/
def order_row (req : OrderRequest) (db2 : DB) (buyer : User) : Order :=
  { id := db2.next_order_id
    buyer_id := buyer.id
    channel_id := req.channel_id
    ad_type := req.ad_type
    price := req.price
    status := "pending_payment"
    payment_method := none
    payment_transaction_id := none
    creative_content := none
    creative_media_id := none
    post_url := none
    notes := none
    paid_at := none
    completed_at := none }

/-- POST /orders/ (src/main.py, create_order): get-or-create the buyer and
set its advertiser flag (both committed before any further check), 404
when the channel id does not resolve, otherwise insert the order with the
request's ad_type and price and status "pending_payment". No check
relates ad_type to the channel's pricing. -/
def create_order (req : OrderRequest) (db : DB) :
    DB × Except ApiError Order :=
  match find_channel (ensure_advertiser req.buyer_telegram_id db).1 req.channel_id with
  | none => ((ensure_advertiser req.buyer_telegram_id db).1,
      .error (.notFound "Channel not found"))
  | some _ =>
      ({ (ensure_advertiser req.buyer_telegram_id db).1 with
          orders := (ensure_advertiser req.buyer_telegram_id db).1.orders ++
            [order_row req (ensure_advertiser req.buyer_telegram_id db).1
              (ensure_advertiser req.buyer_telegram_id db).2]
          next_order_id :=
            (ensure_advertiser req.buyer_telegram_id db).1.next_order_id + 1 },
       .ok (order_row req (ensure_advertiser req.buyer_telegram_id db).1
         (ensure_advertiser req.buyer_telegram_id db).2))

/-- The JSON body of PATCH /orders/{order_id}: an outer `none` means the
key is absent from the body; for nullable columns an inner `none` means
the key is present with value null. -/
structure OrderUpdate where
  status : Option String := none
  payment_method : Option (Option String) := none
  payment_transaction_id : Option (Option String) := none
  creative_content : Option (Option String) := none
  creative_media_id : Option (Option String) := none
  post_url : Option (Option String) := none
  notes : Option (Option String) := none
  paid_at : Option String := none
  completed_at : Option String := none
deriving Repr, DecidableEq

/-- The field-by-field copy loop of update_order: each key present in the
body overwrites the column, every other column keeps its value. `price`
and `ad_type` have no branch in the source and are never written. -/
def apply_order_update (o : Order) (u : OrderUpdate) : Order :=
  { o with
    status := u.status.getD o.status
    payment_method := u.payment_method.getD o.payment_method
    payment_transaction_id := u.payment_transaction_id.getD o.payment_transaction_id
    creative_content := u.creative_content.getD o.creative_content
    creative_media_id := u.creative_media_id.getD o.creative_media_id
    post_url := u.post_url.getD o.post_url
    notes := u.notes.getD o.notes
    paid_at := (u.paid_at.map some).getD o.paid_at
    completed_at := (u.completed_at.map some).getD o.completed_at }

/-- PATCH /orders/{order_id} (src/main.py, update_order): 404 when the
order id does not resolve, otherwise apply the body unconditionally —
the current status is read only to be returned, never compared against
an allowed source set. -/
def update_order (order_id : Nat) (u : OrderUpdate) (db : DB) :
    DB × Except ApiError Order :=
  match find_order db order_id with
  | none => (db, .error (.notFound "Order not found"))
  | some o =>
      let o2 := apply_order_update o u
      ({ db with orders := db.orders.map (fun x => if x.id == order_id then o2 else x) },
       .ok o2)

/-- The status column of one order, read back from the store. -/
def order_status (db : DB) (order_id : Nat) : Option String :=
  (find_order db order_id).map (fun o => o.status)

/-- The price column of one order, read back from the store. -/
def order_price (db : DB) (order_id : Nat) : Option Rat :=
  (find_order db order_id).map (fun o => o.price)

/-- The ad_type column of one order, read back from the store. -/
def order_ad_type (db : DB) (order_id : Nat) : Option String :=
  (find_order db order_id).map (fun o => o.ad_type)

/-- The post_url column of one order, read back from the store. -/
def order_post_url (db : DB) (order_id : Nat) : Option (Option String) :=
  (find_order db order_id).map (fun o => o.post_url)

/-!
## Bot layer (src/bot_handlers.py)

External calls (Telegram API fetches, the system clock) enter the model as
explicit arguments; the values a handler writes back are computed exactly
as the source computes them.
-/

/-- The `status` field of a Telegram chat-member record. The messaging
platform reports the channel owner with the status string "creator"
(aiogram's ChatMemberOwner), which the spec calls the "owner/creator"
role. -/
inductive ChatMemberStatus where
  | creator
  | administrator
  | member
  | restricted
  | left
  | kicked
deriving Repr, DecidableEq

/-- The membership record `get_chat_member` returns for the bot itself:
its status and the explicit posting-permission flag
(`can_post_messages`, read with a getattr defaulting to False). -/
structure ChatMember where
  status : ChatMemberStatus
  can_post_messages : Bool
deriving Repr, DecidableEq

/-- The result of the Admin-Verification Gate. -/
structure AdminCheck where
  is_admin : Bool
  can_post : Bool
deriving Repr, DecidableEq

/-- check_bot_admin_status (src/bot_handlers.py:107-126). `none` models a
raised `get_chat_member` call (bot not a member, or a network error),
handled by the except branch. -/
def check_bot_admin_status (fetch : Option ChatMember) : AdminCheck :=
  match fetch with
  | none => { is_admin := false, can_post := false }
  | some m =>
      let is_admin := m.status == .administrator || m.status == .creator
      let can_post :=
        if m.status == .creator then true
        else if m.status == .administrator then m.can_post_messages
        else false
      { is_admin := is_admin, can_post := can_post }

/-- The spec's decision table for the Admin-Verification Gate (§4.2),
written from the spec's words for comparison with the source function:
role owner/creator gives both flags true; role administrator gives
is_admin with can_post equal to the explicit posting flag; any other
role or a call failure gives both flags false. -/
def spec_admin_decision (fetch : Option ChatMember) : AdminCheck :=
  match fetch with
  | none => { is_admin := false, can_post := false }
  | some m =>
      match m.status with
      | .creator => { is_admin := true, can_post := true }
      | .administrator => { is_admin := true, can_post := m.can_post_messages }
      | _ => { is_admin := false, can_post := false }

/-- The aiogram FSM state tag of one conversation session;
`idle` is the cleared state. -/
inductive SessionState where
  | idle
  | waiting_for_forward
  | waiting_for_pricing
  | selecting_ad_type
  | confirming_purchase
  | waiting_for_content
  | waiting_for_media
deriving Repr, DecidableEq

/-- One principal's conversation session: the FSM state tag plus the keys
`state.update_data` may have stored. `channel_username` is itself
optional data, hence the nested option. -/
structure Session where
  state : SessionState
  channel_id : Option Int
  channel_title : Option String
  channel_username : Option (Option String)
  order_id : Option Nat
  ad_type : Option String
  price : Option Rat
  pricing : Option (List (String × Rat))
  creative_content : Option String
deriving Repr, DecidableEq

/-- `state.clear()`: back to no state, all step data discarded. -/
def Session.cleared : Session :=
  { state := .idle
    channel_id := none
    channel_title := none
    channel_username := none
    order_id := none
    ad_type := none
    price := none
    pricing := none
    creative_content := none }

/-- Python's truthiness test `if not data:` on the FSM storage dict:
true exactly when some key is stored. -/
def Session.has_data (s : Session) : Bool :=
  s.channel_id.isSome || s.channel_title.isSome || s.channel_username.isSome ||
  s.order_id.isSome || s.ad_type.isSome || s.price.isSome ||
  s.pricing.isSome || s.creative_content.isSome

/-- The `forward_from_chat` attribute of an inbound Telegram message. -/
structure ForwardOrigin where
  chat_type : String
  id : Int
  title : Option String
  username : Option String
deriving Repr, DecidableEq

/-- The part of an inbound message process_channel_forward reads. -/
structure IncomingMessage where
  forward_from_chat : Option ForwardOrigin
deriving Repr, DecidableEq

/-- The guard of process_channel_forward: the input carries a forwarded
message whose origin chat is a channel. -/
def is_channel_forward (msg : IncomingMessage) : Bool :=
  match msg.forward_from_chat with
  | none => false
  | some chat => chat.chat_type == "channel"

/-- What process_channel_forward replied with. -/
inductive ForwardOutcome where
  | notAForward
  | notAdmin
  | cannotPost
  | verified
deriving Repr, DecidableEq

/-- process_channel_forward (src/bot_handlers.py:366-445), the transition
handler of the waiting_for_forward state. `admin_fetch` is the external
get_chat_member result consumed by check_bot_admin_status. A non-forward
input is answered with a validation message and the session untouched; a
failed gate clears the session; success stores the pending channel data
and moves to waiting_for_pricing. -/
def process_channel_forward (msg : IncomingMessage)
    (admin_fetch : Option ChatMember) (s : Session) :
    Session × ForwardOutcome :=
  match msg.forward_from_chat with
  | none => (s, .notAForward)
  | some chat =>
      if chat.chat_type != "channel" then (s, .notAForward)
      else
        let check := check_bot_admin_status admin_fetch
        if !check.is_admin then (Session.cleared, .notAdmin)
        else if !check.can_post then (Session.cleared, .cannotPost)
        else
          ({ s with state := .waiting_for_pricing
                    channel_id := some chat.id
                    channel_title := some (chat.title.getD "Unknown Channel")
                    channel_username := some chat.username }, .verified)

/-!
### The pricing parser of process_channel_pricing

The source lowercases and strips the whole message, splits it into lines,
and for each line containing exactly one colon parses the right side with
Python's `float` and keeps the entry when the key is one of post, story,
repost. A failed `float` is swallowed by `except: pass`.
-/

/-- Python `str.split(sep)` for a one-character separator: split on every
occurrence, keeping empty pieces. -/
def split_on_char (c : Char) : List Char → List (List Char)
  | [] => [[]]
  | a :: rest =>
      match split_on_char c rest with
      | [] => [[]]
      | g :: gs => if a == c then [] :: g :: gs else (a :: g) :: gs

/-- Python `str.strip()`: drop leading and trailing whitespace. -/
def trim_chars (cs : List Char) : List Char :=
  ((cs.dropWhile Char.isWhitespace).reverse.dropWhile Char.isWhitespace).reverse

/-- Python `str.lower()` on the ASCII range the pricing keys use. -/
def lower_chars (cs : List Char) : List Char :=
  cs.map Char.toLower

/-- Numeric value of a digit list, most significant first. -/
def nat_of_digits (ds : List Char) : Nat :=
  ds.foldl (fun a c => a * 10 + (c.toNat - 48)) 0

/-- Python `float` on an already-stripped character string: optional
sign, then either digits with an optional fraction or a bare fraction,
then an optional exponent. (The inf/nan spellings and underscore
separators that `float` also accepts are omitted: they denote no
price.) -/
def parse_float (cs : List Char) : Option Rat :=
  let step2 : Rat → List Char → Option Rat := fun mantissa rest =>
    match rest with
    | [] => some mantissa
    | e :: rest2 =>
        if e == 'e' || e == 'E' then
          let q : Bool × List Char :=
            match rest2 with
            | '+' :: r => (true, r)
            | '-' :: r => (false, r)
            | r => (true, r)
          let ed := q.2.takeWhile Char.isDigit
          let rest3 := q.2.dropWhile Char.isDigit
          if ed.isEmpty || !rest3.isEmpty then none
          else if q.1 then some (mantissa * (10 : Rat) ^ (nat_of_digits ed))
          else some (mantissa / (10 : Rat) ^ (nat_of_digits ed))
        else none
  let body :=
    match cs with
    | '+' :: rest => (true, rest)
    | '-' :: rest => (false, rest)
    | rest => (true, rest)
  let ip := body.2.takeWhile Char.isDigit
  let afterInt := body.2.dropWhile Char.isDigit
  let r :=
    match afterInt with
    | '.' :: rest =>
        let fp := rest.takeWhile Char.isDigit
        let afterFrac := rest.dropWhile Char.isDigit
        if ip.isEmpty && fp.isEmpty then none
        else
          step2 ((nat_of_digits ip : Rat) +
            (nat_of_digits fp : Rat) / (10 : Rat) ^ fp.length) afterFrac
    | _ =>
        if ip.isEmpty then none
        else step2 (nat_of_digits ip : Rat) afterInt
  match r with
  | none => none
  | some v => some (if body.1 then v else -v)

/-- Python dict assignment `pricing[key] = value`: overwrite in place when
the key exists, else append (dicts preserve insertion order). -/
def dict_insert (k : String) (v : Rat) (d : List (String × Rat)) :
    List (String × Rat) :=
  if d.any (fun p => p.1 == k) then
    d.map (fun p => if p.1 == k then (k, v) else p)
  else d ++ [(k, v)]

/-- The pricing-parse loop of process_channel_pricing
(src/bot_handlers.py:458-469): strip and lowercase the message, split into
lines, and keep `key: value` lines whose key is post, story or repost and
whose value parses as a float. The source's `':' in line` guard is
subsumed by requiring the colon-split to yield exactly two parts. -/
def parse_pricing (text : String) : List (String × Rat) :=
  (split_on_char (Char.ofNat 10) (lower_chars (trim_chars text.data))).foldl
    (fun pricing line =>
      match split_on_char ':' line with
      | [k, v] =>
          match parse_float (trim_chars v) with
          | some value =>
              if ["post", "story", "repost"].contains (String.mk (trim_chars k)) then
                dict_insert (String.mk (trim_chars k)) value pricing
              else pricing
          | none => pricing
      | _ => pricing)
    []

/-- What process_channel_pricing replied with. -/
inductive PricingOutcome where
  | noChannelData
  | invalidFormat
  | alreadyListed
  | dbError (detail : String)
  | internalError
  | saved (id : Nat)
deriving Repr, DecidableEq

/-- process_channel_pricing (src/bot_handlers.py:447-520), the transition
handler of the waiting_for_pricing state, acting for the principal
`user_id`: empty step data aborts; a parse yielding no entries re-prompts
leaving session and store untouched; otherwise the channel is saved
through POST /channels/ and the session cleared. A missing step-data key
raises a KeyError caught by the except branch, which also clears. -/
def process_channel_pricing (user_id : Int) (text : String) (s : Session)
    (db : DB) : DB × Session × PricingOutcome :=
  if !s.has_data then (db, Session.cleared, .noChannelData)
  else
    let pricing := parse_pricing text
    if pricing.isEmpty then (db, s, .invalidFormat)
    else
      match s.channel_id, s.channel_title, s.channel_username with
      | some cid, some ctitle, some cuser =>
          let req : ChannelRequest :=
            { owner_telegram_id := user_id
              telegram_channel_id := cid
              channel_title := ctitle
              channel_username := cuser
              pricing := pricing }
          let p := create_channel req db
          match p.2 with
          | .ok c => (p.1, Session.cleared, .saved c.id)
          | .error (.badRequest _) => (p.1, Session.cleared, .alreadyListed)
          | .error (.notFound d) => (p.1, Session.cleared, .dbError d)
      | _, _, _ => (db, Session.cleared, .internalError)

/-!
### Order lifecycle handlers

callback_approve_order posts to the external channel and then records the
result; the externally published artifacts are the `sent` list of the
world state. callback_reject_order and callback_cancel_order are single
PATCH calls. None of the three reads `callback.from_user` for anything
but logging, so the acting principal is an ignored argument.
-/

/-- One message the bot published to a Telegram chat (send_photo or
send_message): the caption/text is the order's creative content, the
photo is its media id when present. -/
structure SentMessage where
  chat_id : Int
  message_id : Nat
  content : String
  photo : Option String
deriving Repr, DecidableEq

/-- The bot's world: the backend store plus the externally published
messages and the platform's message-id counter. -/
structure World where
  db : DB
  sent : List SentMessage
  next_message_id : Nat
deriving Repr, DecidableEq

/-- The post reference computed after publishing
(src/bot_handlers.py:1255-1258): a t.me link for public channels, a
descriptive string otherwise. -/
def post_url_for (ch : Channel) (message_id : Nat) : String :=
  match ch.channel_username with
  | some uname => "https://t.me/" ++ uname ++ "/" ++ toString message_id
  | none => "Posted to channel " ++ ch.channel_title

/-- What callback_approve_order replied with. -/
inductive ApproveOutcome where
  | orderNotFound
  | channelNotFound
  | posted (url : String)
deriving Repr, DecidableEq

/-- callback_approve_order (src/bot_handlers.py:1207-1279): fetch the
order and its channel, publish the creative to the external channel
unconditionally — no check of the order's status, of an existing
post_url, or of the acting principal — then PATCH status "posted" with
the fresh post_url and completion time. -/
def callback_approve_order (_actor : Int) (order_id : Nat) (now : String)
    (w : World) : World × ApproveOutcome :=
  match find_order w.db order_id with
  | none => (w, .orderNotFound)
  | some o =>
      match find_channel w.db o.channel_id with
      | none => (w, .channelNotFound)
      | some ch =>
          let msg : SentMessage :=
            { chat_id := ch.telegram_channel_id
              message_id := w.next_message_id
              content := o.creative_content.getD "Advertisement"
              photo := o.creative_media_id }
          let url := post_url_for ch w.next_message_id
          let upd : OrderUpdate :=
            { status := some "posted"
              post_url := some (some url)
              completed_at := some now }
          let p := update_order order_id upd w.db
          ({ db := p.1
             sent := w.sent ++ [msg]
             next_message_id := w.next_message_id + 1 }, .posted url)

/-- callback_reject_order (src/bot_handlers.py:1282-1299): one PATCH
setting status back to "paid", with no read of the current status and no
check of the acting principal. -/
def callback_reject_order (_actor : Int) (order_id : Nat) (db : DB) :
    DB × Except ApiError Order :=
  update_order order_id { status := some "paid" } db

/-- callback_cancel_order (src/bot_handlers.py:1362-1381): one PATCH
setting status to "cancelled", with no read of the current status and no
check of the acting principal. -/
def callback_cancel_order (_actor : Int) (order_id : Nat) (db : DB) :
    DB × Except ApiError Order :=
  update_order order_id { status := some "cancelled" } db

/-- callback_pay_order (src/bot_handlers.py:844-905): one PATCH setting
status "paid" with the simulated payment data, again without reading the
current status. -/
def callback_pay_order (_actor : Int) (order_id : Nat) (tx_id now : String)
    (db : DB) : DB × Except ApiError Order :=
  update_order order_id
    { status := some "paid"
      payment_method := some (some "simulated")
      payment_transaction_id := some (some tx_id)
      paid_at := some now } db

/-- The PATCH issued by process_creative_media
(src/bot_handlers.py:1072-1079): store the creative and set status
"creative_submitted", without reading the current status. -/
def submit_creative (order_id : Nat) (content : String)
    (media : Option String) (db : DB) : DB × Except ApiError Order :=
  update_order order_id
    { status := some "creative_submitted"
      creative_content := some (some content)
      creative_media_id := some media } db

/-!
## Helper lemmas
-/

theorem apply_order_update_id (o : Order) (u : OrderUpdate) :
    (apply_order_update o u).id = o.id := rfl

theorem apply_order_update_price (o : Order) (u : OrderUpdate) :
    (apply_order_update o u).price = o.price := rfl

theorem apply_order_update_ad_type (o : Order) (u : OrderUpdate) :
    (apply_order_update o u).ad_type = o.ad_type := rfl

/-- `find?` over a list rewritten by a key-preserving map commutes with
the map. -/
theorem find?_map_key {α : Type} (g : α → α) (key : α → Nat)
    (hg : ∀ x, key (g x) = key x) (n : Nat) (l : List α) :
    (l.map g).find? (fun x => key x == n) =
      (l.find? (fun x => key x == n)).map g := by
  induction l with
  | nil => rfl
  | cons a t ih =>
      by_cases hpa : (key a == n) = true
      · rw [List.map_cons, List.find?_cons_of_pos t hpa,
          List.find?_cons_of_pos (t.map g) (show (key (g a) == n) = true by rw [hg]; exact hpa)]
        rfl
      · rw [List.map_cons, List.find?_cons_of_neg t (by simpa using hpa),
          List.find?_cons_of_neg (t.map g)
            (by rw [show (key (g a) == n) = (key a == n) by rw [hg]]; simpa using hpa)]
        exact ih

theorem find_order_id (db : DB) (k : Nat) (o : Order)
    (h : find_order db k = some o) : o.id = k := by
  have := List.find?_some h
  simpa using this

theorem update_order_found (k : Nat) (u : OrderUpdate) (db : DB) (o : Order)
    (h : find_order db k = some o) :
    update_order k u db =
      ({ db with orders :=
          db.orders.map (fun x => if x.id == k then apply_order_update o u else x) },
       .ok (apply_order_update o u)) := by
  unfold update_order
  rw [h]

/-- The replacement function of update_order preserves primary keys. -/
theorem update_fun_key (k : Nat) (u : OrderUpdate) (db : DB) (o : Order)
    (h : find_order db k = some o) (x : Order) :
    (if x.id == k then apply_order_update o u else x).id = x.id := by
  by_cases hx : (x.id == k) = true
  · rw [if_pos hx, apply_order_update_id, find_order_id db k o h]
    have : x.id = k := by simpa using hx
    rw [this]
  · rw [if_neg (by simpa using hx)]

theorem find_order_after_update (k : Nat) (u : OrderUpdate) (db : DB) (o : Order)
    (h : find_order db k = some o) (oid : Nat) :
    find_order (update_order k u db).1 oid =
      (find_order db oid).map
        (fun x => if x.id == k then apply_order_update o u else x) := by
  rw [update_order_found k u db o h]
  unfold find_order
  exact find?_map_key _ (fun x => x.id) (update_fun_key k u db o h) oid db.orders

/-- Reading back the row just written: the same id resolves to the
updated row. -/
theorem find_order_after_self (oid : Nat) (u : OrderUpdate) (db : DB) (o : Order)
    (h : find_order db oid = some o) :
    find_order (update_order oid u db).1 oid = some (apply_order_update o u) := by
  rw [find_order_after_update oid u db o h oid, h, Option.map_some']
  rw [if_pos (by simp [find_order_id db oid o h])]

theorem order_status_after_self (oid : Nat) (u : OrderUpdate) (db : DB) (o : Order)
    (h : find_order db oid = some o) :
    order_status (update_order oid u db).1 oid = some (u.status.getD o.status) := by
  unfold order_status
  rw [find_order_after_self oid u db o h]
  rfl

theorem order_post_url_after_self (oid : Nat) (u : OrderUpdate) (db : DB) (o : Order)
    (h : find_order db oid = some o) :
    order_post_url (update_order oid u db).1 oid =
      some (u.post_url.getD o.post_url) := by
  unfold order_post_url
  rw [find_order_after_self oid u db o h]
  rfl

/-- One PATCH never changes any order's price or ad_type, whatever the
requested key and body. -/
theorem update_order_preserves_price_ad_type (k : Nat) (u : OrderUpdate)
    (db : DB) (oid : Nat) :
    order_price (update_order k u db).1 oid = order_price db oid ∧
    order_ad_type (update_order k u db).1 oid = order_ad_type db oid := by
  cases hf : find_order db k with
  | none =>
      unfold update_order
      rw [hf]
      exact ⟨rfl, rfl⟩
  | some o =>
      have hfa := find_order_after_update k u db o hf oid
      unfold order_price order_ad_type
      rw [hfa]
      cases hfo : find_order db oid with
      | none => exact ⟨rfl, rfl⟩
      | some x =>
          simp only [Option.map_some']
          by_cases hxk : (x.id == k) = true
          · -- the read row is the written one: oid = k, and first matches of
            -- the same predicate coincide, so x is exactly o
            have hxid : x.id = oid := by simpa using find_order_id db oid x hfo
            have hk : x.id = k := by simpa using hxk
            have hok : oid = k := by rw [← hxid, hk]
            subst hok
            rw [hf] at hfo
            cases hfo
            rw [if_pos hxk]
            exact ⟨rfl, rfl⟩
          · rw [if_neg (by simpa using hxk)]
            exact ⟨rfl, rfl⟩

/-- update_order never reads the channels table. -/
theorem update_order_channels_frame (k : Nat) (u : OrderUpdate) (db : DB)
    (cs : List Channel) :
    ((update_order k u { db with channels := cs }).1).orders =
      ((update_order k u db).1).orders := by
  have hfind : find_order { db with channels := cs } k = find_order db k := rfl
  unfold update_order
  rw [hfind]
  cases hf : find_order db k <;> rfl

theorem get_or_create_bare_channels (t : Int) (db : DB) :
    (get_or_create_bare t db).1.channels = db.channels := by
  unfold get_or_create_bare
  cases find_user db t <;> rfl

theorem get_or_create_bare_orders (t : Int) (db : DB) :
    (get_or_create_bare t db).1.orders = db.orders := by
  unfold get_or_create_bare
  cases find_user db t <;> rfl

theorem ensure_advertiser_channels (t : Int) (db : DB) :
    (ensure_advertiser t db).1.channels = db.channels := by
  unfold ensure_advertiser set_user
  cases h : get_or_create_bare t db with
  | mk db1 u =>
      have h1 : db1.channels = db.channels := by
        have := get_or_create_bare_channels t db
        rw [h] at this
        exact this
      by_cases hb : u.is_advertiser = true
      · rw [if_pos hb]
        exact h1
      · rw [if_neg hb]
        exact h1

theorem ensure_advertiser_orders (t : Int) (db : DB) :
    (ensure_advertiser t db).1.orders = db.orders := by
  unfold ensure_advertiser set_user
  cases h : get_or_create_bare t db with
  | mk db1 u =>
      have h1 : db1.orders = db.orders := by
        have := get_or_create_bare_orders t db
        rw [h] at this
        exact this
      by_cases hb : u.is_advertiser = true
      · rw [if_pos hb]
        exact h1
      · rw [if_neg hb]
        exact h1

theorem ensure_channel_owner_channels (t : Int) (db : DB) :
    (ensure_channel_owner t db).1.channels = db.channels := by
  unfold ensure_channel_owner set_user
  cases h : get_or_create_bare t db with
  | mk db1 u =>
      have h1 : db1.channels = db.channels := by
        have := get_or_create_bare_channels t db
        rw [h] at this
        exact this
      by_cases hb : u.is_channel_owner = true
      · rw [if_pos hb]
        exact h1
      · rw [if_neg hb]
        exact h1

/-- A fresh buyer row is appended, then the flag write maps the user
list: the user table grows by exactly one row. -/
theorem ensure_advertiser_new_user_count (t : Int) (db : DB)
    (h : find_user db t = none) :
    (ensure_advertiser t db).1.users.length = db.users.length + 1 := by
  unfold ensure_advertiser get_or_create_bare set_user
  rw [h]
  simp [fresh_bare_user]

/-- A single PATCH step of an arbitrary update sequence. -/
def apply_updates (us : List (Nat × OrderUpdate)) (db : DB) : DB :=
  us.foldl (fun d p => (update_order p.1 p.2 d).1) db

/-!
## Claims
-/

/-- C4. The Admin-Verification Gate implements the spec's decision table
for every fetched membership record: the owner/creator role gives
is_admin and can_post; the administrator role gives is_admin with
can_post equal to the explicit posting flag; any other role, or a call
failure, gives neither — in particular the owner role deterministically
gives is_admin=true, can_post=true. -/
theorem C4_admin_gate_matches_spec_table :
    ∀ fetch : Option ChatMember,
      check_bot_admin_status fetch = spec_admin_decision fetch := by
  intro fetch
  rcases fetch with _ | ⟨st, cp⟩
  · rfl
  · cases st <;> rfl

/-- C7. An order's price and ad_type are immutable after creation: any
sequence of PATCH /orders/ calls with any bodies leaves both fields of
every order unchanged, and update_order never reads the channels table,
so later edits to a channel's price list cannot re-derive an order's
price. -/
theorem C7_price_and_ad_type_immutable :
    ∀ (us : List (Nat × OrderUpdate)) (db : DB) (oid : Nat),
      (order_price (apply_updates us db) oid = order_price db oid ∧
       order_ad_type (apply_updates us db) oid = order_ad_type db oid) ∧
      ∀ (k : Nat) (u : OrderUpdate) (cs : List Channel),
        ((update_order k u { db with channels := cs }).1).orders =
          ((update_order k u db).1).orders := by
  intro us
  induction us with
  | nil =>
      intro db oid
      exact ⟨⟨rfl, rfl⟩, fun k u cs => update_order_channels_frame k u db cs⟩
  | cons p t ih =>
      intro db oid
      refine ⟨?_, fun k u cs => update_order_channels_frame k u db cs⟩
      have hstep := update_order_preserves_price_ad_type p.1 p.2 db oid
      have hrest := (ih (update_order p.1 p.2 db).1 oid).1
      have hfold : apply_updates (p :: t) db = apply_updates t (update_order p.1 p.2 db).1 := rfl
      rw [hfold]
      exact ⟨hrest.1.trans hstep.1, hrest.2.trans hstep.2⟩

/-- C9. POST /users/ is idempotent on known principals: when the telegram
id already resolves to a stored row, the call returns exactly that row's
data and leaves the store untouched, whatever username and first name
accompany the request. -/
theorem C9_create_or_get_user_idempotent :
    ∀ (t : Int) (un fn : String) (db : DB) (u : User),
      find_user db t = some u →
      create_or_get_user t un fn db = (db, u) := by
  intro t un fn db u h
  unfold create_or_get_user
  rw [h]

/-- A store holding one fully populated user, for the C9 witness. -/
def user_w9 : User :=
  { id := 3
    telegram_id := 42
    username := some "alice"
    first_name := some "Alice"
    is_channel_owner := true
    is_advertiser := false }

def db_w9 : DB :=
  { users := [user_w9]
    channels := []
    orders := []
    next_user_id := 4
    next_channel_id := 1
    next_order_id := 1 }

theorem C9_witness :
    create_or_get_user 42 "other" "Other" db_w9 = (db_w9, user_w9) :=
  C9_create_or_get_user_idempotent 42 "other" "Other" db_w9 user_w9 (by rfl)

/-- C10. Listing channels by owner and orders by buyer for a telegram id
that matches no stored user answers with an empty list (HTTP 200), never
with a NotFound error. -/
theorem C10_unknown_user_listings_empty :
    ∀ (t : Int) (db : DB),
      find_user db t = none →
      get_owner_channels t db = .ok [] ∧ get_user_orders t db = .ok [] := by
  intro t db h
  constructor
  · unfold get_owner_channels
    rw [h]
  · unfold get_user_orders
    rw [h]

/-- A store with users, channels and orders but no user with telegram id
777, for the C10 witness. -/
def db_w10 : DB :=
  { users := [user_w9]
    channels := [{ id := 1
                   owner_id := 3
                   telegram_channel_id := -100500
                   channel_title := "Chan"
                   channel_username := some "chan"
                   pricing := [("post", 100)]
                   status := "active" }]
    orders := []
    next_user_id := 4
    next_channel_id := 2
    next_order_id := 1 }

theorem C10_witness :
    get_owner_channels 777 db_w10 = .ok [] ∧ get_user_orders 777 db_w10 = .ok [] :=
  C10_unknown_user_listings_empty 777 db_w10 (by rfl)

/-- Any channel row present after create_channel was either already
stored or carries exactly the requested pricing. -/
theorem create_channel_mem_channels (req : ChannelRequest) (db : DB)
    (c : Channel) (h : c ∈ (create_channel req db).1.channels) :
    c ∈ db.channels ∨ c.pricing = req.pricing := by
  have hch : (ensure_channel_owner req.owner_telegram_id db).1.channels = db.channels :=
    ensure_channel_owner_channels _ db
  unfold create_channel at h
  cases hdup : (ensure_channel_owner req.owner_telegram_id db).1.channels.find?
      (fun c => c.telegram_channel_id == req.telegram_channel_id) with
  | some dup =>
      rw [hdup] at h
      rw [hch] at h
      exact Or.inl h
  | none =>
      rw [hdup] at h
      simp only [List.mem_append, List.mem_singleton] at h
      cases h with
      | inl h1 =>
          rw [hch] at h1
          exact Or.inl h1
      | inr h2 =>
          subst h2
          exact Or.inr rfl

/-- C5. A channel-registration attempt whose pricing message parses to no
well-formed ad-type/price entry is rejected before POST /channels/ is
ever issued: the store is unchanged and the outcome is never a saved
channel. Moreover, over any registration attempt, every channel row the
handler may have added carries a non-empty price list. -/
theorem C5_empty_pricing_rejected_before_creation :
    ∀ (uid : Int) (text : String) (s : Session) (db : DB),
      (parse_pricing text = [] →
        (process_channel_pricing uid text s db).1 = db ∧
        ∀ n, (process_channel_pricing uid text s db).2.2 ≠ .saved n) ∧
      ∀ c, c ∈ (process_channel_pricing uid text s db).1.channels →
        c ∈ db.channels ∨ c.pricing ≠ [] := by
  intro uid text s db
  unfold process_channel_pricing
  cases hdata : s.has_data with
  | false =>
      exact ⟨fun _ => ⟨rfl, fun n hn => by cases hn⟩, fun c hc => Or.inl hc⟩
  | true =>
      simp only [Bool.not_true, if_neg (by simp : ¬ (false = true))]
      cases hp : (parse_pricing text).isEmpty with
      | true =>
          simp only [if_pos rfl]
          refine ⟨fun _ => ⟨rfl, fun n hn => by cases hn⟩, fun c hc => Or.inl hc⟩
      | false =>
          simp only [if_neg (by simp : ¬ (false = true))]
          have hne : parse_pricing text ≠ [] := by
            intro he
            rw [he] at hp
            cases hp
          refine ⟨fun he => absurd he hne, ?_⟩
          cases s.channel_id with
          | none => exact fun c hc => Or.inl hc
          | some cid =>
              cases s.channel_title with
              | none => exact fun c hc => Or.inl hc
              | some ctitle =>
                  cases s.channel_username with
                  | none => exact fun c hc => Or.inl hc
                  | some cuser =>
                      intro c hc
                      have hmem : c ∈ (create_channel
                          { owner_telegram_id := uid
                            telegram_channel_id := cid
                            channel_title := ctitle
                            channel_username := cuser
                            pricing := parse_pricing text } db).1.channels := by
                        cases hres : (create_channel
                            { owner_telegram_id := uid
                              telegram_channel_id := cid
                              channel_title := ctitle
                              channel_username := cuser
                              pricing := parse_pricing text } db).2 with
                        | ok cc => simpa [hres] using hc
                        | error e =>
                            cases e with
                            | badRequest d => simpa [hres] using hc
                            | notFound d => simpa [hres] using hc
                      cases create_channel_mem_channels _ db c hmem with
                      | inl h1 => exact Or.inl h1
                      | inr h2 =>
                          refine Or.inr ?_
                          rw [h2]
                          exact hne

/-- The shared empty store. -/
def db0 : DB :=
  { users := []
    channels := []
    orders := []
    next_user_id := 1
    next_channel_id := 1
    next_order_id := 1 }

/-- A session sitting in the pricing step with verified channel data, for
the C5 witness. -/
def session_w5 : Session :=
  { state := .waiting_for_pricing
    channel_id := some (-1001)
    channel_title := some "Chan"
    channel_username := some (some "chan")
    order_id := none
    ad_type := none
    price := none
    pricing := none
    creative_content := none }

theorem C5_witness :
    ((process_channel_pricing 5 "hello there" session_w5 db0).1 = db0 ∧
      ∀ n, (process_channel_pricing 5 "hello there" session_w5 db0).2.2 ≠
        PricingOutcome.saved n) ∧
    (∀ c, c ∈ (process_channel_pricing 5 "hello there" session_w5 db0).1.channels →
      c ∈ db0.channels ∨ c.pricing ≠ []) :=
  ⟨(C5_empty_pricing_rejected_before_creation 5 "hello there" session_w5 db0).1 (by rfl),
   (C5_empty_pricing_rejected_before_creation 5 "hello there" session_w5 db0).2⟩

/-- C8. In the AwaitingChannelForward step, any input that is not a
forwarded-channel reference is answered with a validation message and the
session — state tag and pending step data alike — is returned unchanged:
the rejection is retryable, not fatal. -/
theorem C8_forward_guard_preserves_session :
    ∀ (msg : IncomingMessage) (fetch : Option ChatMember) (s : Session),
      is_channel_forward msg = false →
      process_channel_forward msg fetch s = (s, .notAForward) := by
  intro msg fetch s h
  unfold is_channel_forward at h
  cases hm : msg.forward_from_chat with
  | none =>
      unfold process_channel_forward
      rw [hm]
  | some chat =>
      rw [hm] at h
      unfold process_channel_forward
      simp only [hm]
      have h2 : (chat.chat_type == "channel") = false := h
      have hb : (chat.chat_type != "channel") = true := by
        simp only [bne]
        rw [h2]
        rfl
      rw [if_pos hb]

/-- A session in the forward-wait step, for the C8 witness. -/
def session_w8 : Session :=
  { state := .waiting_for_forward
    channel_id := none
    channel_title := none
    channel_username := none
    order_id := none
    ad_type := none
    price := none
    pricing := none
    creative_content := none }

/-- A message forwarded from a supergroup, not from a channel. -/
def msg_w8 : IncomingMessage :=
  { forward_from_chat := some
      { chat_type := "supergroup"
        id := -2002
        title := some "Group"
        username := none } }

theorem C8_witness :
    process_channel_forward msg_w8 none session_w8 = (session_w8, .notAForward) :=
  C8_forward_guard_preserves_session msg_w8 none session_w8 (by rfl)

/-- C1 fixture: an order that has completed the full lifecycle. -/
def order_c1 : Order :=
  { id := 1
    buyer_id := 1
    channel_id := 1
    ad_type := "post"
    price := 100
    status := "completed"
    payment_method := some "simulated"
    payment_transaction_id := some "SIM1"
    creative_content := some "Ad text"
    creative_media_id := none
    post_url := some "https://t.me/chan/5"
    notes := none
    paid_at := some "2024-01-01T00:00:00"
    completed_at := some "2024-01-02T00:00:00" }

def db_c1 : DB :=
  { users := []
    channels := []
    orders := [order_c1]
    next_user_id := 1
    next_channel_id := 1
    next_order_id := 2 }

/-- C1 is false on the code: a reject call on an order whose status is
"completed" does not fail with any Conflict classification — the call
succeeds and the order is mutated, its status becoming "paid" instead of
remaining "completed". -/
theorem C1_counterexample_reject_after_completion :
    order_status db_c1 1 = some "completed" ∧
    is_ok (callback_reject_order 7 1 db_c1).2 = true ∧
    order_status (callback_reject_order 7 1 db_c1).1 1 = some "paid" := by
  decide

/-- C1 amended: no order transition reads the current status before
writing — update_order applies any requested body to any existing order
and answers 200 with the updated row, whatever the current status; in
particular a reject call on a Completed order succeeds and leaves the
status "paid" rather than failing with a Conflict. -/
theorem C1_amended_update_ignores_source_status :
    ∀ (a : Int) (db : DB) (oid : Nat) (u : OrderUpdate) (o : Order),
      find_order db oid = some o →
      (update_order oid u db).2 = .ok (apply_order_update o u) ∧
      order_status (update_order oid u db).1 oid = some (u.status.getD o.status) ∧
      order_status (callback_reject_order a oid db).1 oid = some "paid" := by
  intro a db oid u o h
  refine ⟨?_, order_status_after_self oid u db o h, ?_⟩
  · rw [update_order_found oid u db o h]
  · exact order_status_after_self oid { status := some "paid" } db o h

theorem C1_amended_witness :
    (update_order 1 { status := some "refunded" } db_c1).2 =
      .ok (apply_order_update order_c1 { status := some "refunded" }) ∧
    order_status (update_order 1 { status := some "refunded" } db_c1).1 1 =
      some "refunded" ∧
    order_status (callback_reject_order 7 1 db_c1).1 1 = some "paid" :=
  C1_amended_update_ignores_source_status 7 db_c1 1 { status := some "refunded" }
    order_c1 (by rfl)

/-- C2 fixture: an already-approved order carrying a published-post
reference, in a world where that post was already sent. -/
def order_c2 : Order :=
  { id := 1
    buyer_id := 1
    channel_id := 1
    ad_type := "post"
    price := 100
    status := "posted"
    payment_method := some "simulated"
    payment_transaction_id := some "SIM1"
    creative_content := some "Buy now"
    creative_media_id := none
    post_url := some "https://t.me/chan/5"
    notes := none
    paid_at := some "2024-01-01T00:00:00"
    completed_at := some "2024-01-02T00:00:00" }

def channel_c2 : Channel :=
  { id := 1
    owner_id := 2
    telegram_channel_id := -1001
    channel_title := "Chan"
    channel_username := some "chan"
    pricing := [("post", 100)]
    status := "active" }

def world_c2 : World :=
  { db := { users := []
            channels := [channel_c2]
            orders := [order_c2]
            next_user_id := 1
            next_channel_id := 2
            next_order_id := 2 }
    sent := [{ chat_id := -1001, message_id := 5, content := "Buy now", photo := none }]
    next_message_id := 9 }

/-- C2 is false on the code: the order already carries the published-post
reference t.me/chan/5, yet a repeated approve publishes one more message
to the channel and stores a fresh reference (t.me/chan/9) instead of
being a no-op that returns the existing one. -/
theorem C2_counterexample_second_approve_republishes :
    order_post_url world_c2.db 1 = some (some "https://t.me/chan/5") ∧
    (callback_approve_order 7 1 "2024-01-03T00:00:00" world_c2).1.sent.length =
      world_c2.sent.length + 1 ∧
    order_post_url
      (callback_approve_order 7 1 "2024-01-03T00:00:00" world_c2).1.db 1 =
      some (some "https://t.me/chan/9") ∧
    (callback_approve_order 7 1 "2024-01-03T00:00:00" world_c2).2 ≠
      ApproveOutcome.posted "https://t.me/chan/5" := by
  decide

/-- C2 amended: the publish side effect is not idempotent — whenever the
order and its channel resolve, every approve call publishes one new
message to the external channel and overwrites the stored published-post
reference with a fresh one, even when a reference is already present. -/
theorem C2_amended_approve_republishes :
    ∀ (a : Int) (oid : Nat) (now : String) (w : World) (o : Order) (ch : Channel),
      find_order w.db oid = some o →
      find_channel w.db o.channel_id = some ch →
      (callback_approve_order a oid now w).1.sent =
        w.sent ++ [{ chat_id := ch.telegram_channel_id
                     message_id := w.next_message_id
                     content := o.creative_content.getD "Advertisement"
                     photo := o.creative_media_id }] ∧
      order_post_url (callback_approve_order a oid now w).1.db oid =
        some (some (post_url_for ch w.next_message_id)) ∧
      order_status (callback_approve_order a oid now w).1.db oid = some "posted" := by
  intro a oid now w o ch ho hc
  unfold callback_approve_order
  simp only [ho, hc]
  refine ⟨?_, ?_, ?_⟩
  · trivial
  · exact order_post_url_after_self oid _ w.db o ho
  · exact order_status_after_self oid _ w.db o ho

theorem C2_amended_witness :
    (callback_approve_order 7 1 "2024-01-03T00:00:00" world_c2).1.sent =
      world_c2.sent ++ [{ chat_id := channel_c2.telegram_channel_id
                          message_id := world_c2.next_message_id
                          content := order_c2.creative_content.getD "Advertisement"
                          photo := order_c2.creative_media_id }] ∧
    order_post_url
      (callback_approve_order 7 1 "2024-01-03T00:00:00" world_c2).1.db 1 =
      some (some (post_url_for channel_c2 world_c2.next_message_id)) ∧
    order_status
      (callback_approve_order 7 1 "2024-01-03T00:00:00" world_c2).1.db 1 =
      some "posted" :=
  C2_amended_approve_republishes 7 1 "2024-01-03T00:00:00" world_c2 order_c2
    channel_c2 (by rfl) (by rfl)

/-- C3 fixture: a channel whose price list has exactly the key "post",
and an order request for an absent ad type. -/
def channel_c3 : Channel :=
  { id := 1
    owner_id := 1
    telegram_channel_id := -1002
    channel_title := "Tech"
    channel_username := some "tech"
    pricing := [("post", 100)]
    status := "active" }

def db_c3 : DB :=
  { users := []
    channels := [channel_c3]
    orders := []
    next_user_id := 1
    next_channel_id := 2
    next_order_id := 1 }

def req_c3 : OrderRequest :=
  { buyer_telegram_id := 42
    channel_id := 1
    ad_type := "story"
    price := 50 }

/-- C3 is false on the code: "story" is not a key of the channel's price
list, yet the creation succeeds, inserts the order row with that ad type,
and also creates the buyer row — instead of failing with
ValidationError/NotFound and mutating nothing. -/
theorem C3_counterexample_foreign_ad_type_accepted :
    db_c3.channels.map (fun c => c.pricing.map Prod.fst) = [["post"]] ∧
    is_ok (create_order req_c3 db_c3).2 = true ∧
    order_ad_type (create_order req_c3 db_c3).1 1 = some "story" ∧
    (create_order req_c3 db_c3).1.orders.length = db_c3.orders.length + 1 ∧
    (create_order req_c3 db_c3).1.users.length = db_c3.users.length + 1 := by
  decide

/-- C3 amended: create_order validates only that the channel id resolves
(404 otherwise). When it does, the order is inserted with the request's
ad_type and price whether or not that ad_type is a key of the channel's
price list; and the buyer row is created and marked advertiser before the
channel check, so even the NotFound path grows the user table when the
buyer is new. -/
theorem C3_amended_create_order_checks_only_channel :
    ∀ (req : OrderRequest) (db : DB),
      ((find_channel db req.channel_id).isSome = true →
        (create_order req db).2 =
          .ok (order_row req (ensure_advertiser req.buyer_telegram_id db).1
            (ensure_advertiser req.buyer_telegram_id db).2) ∧
        (create_order req db).1.orders =
          db.orders ++ [order_row req (ensure_advertiser req.buyer_telegram_id db).1
            (ensure_advertiser req.buyer_telegram_id db).2] ∧
        (order_row req (ensure_advertiser req.buyer_telegram_id db).1
          (ensure_advertiser req.buyer_telegram_id db).2).ad_type = req.ad_type ∧
        (order_row req (ensure_advertiser req.buyer_telegram_id db).1
          (ensure_advertiser req.buyer_telegram_id db).2).price = req.price) ∧
      (find_user db req.buyer_telegram_id = none →
        (create_order req db).1.users.length = db.users.length + 1) := by
  intro req db
  have hch : find_channel (ensure_advertiser req.buyer_telegram_id db).1
      req.channel_id = find_channel db req.channel_id := by
    unfold find_channel
    rw [ensure_advertiser_channels]
  constructor
  · intro hsome
    obtain ⟨ch, hc⟩ := Option.isSome_iff_exists.mp hsome
    have hcc : find_channel (ensure_advertiser req.buyer_telegram_id db).1
        req.channel_id = some ch := hch.trans hc
    unfold create_order
    rw [hcc]
    refine ⟨rfl, ?_, rfl, rfl⟩
    show (ensure_advertiser req.buyer_telegram_id db).1.orders ++ _ = db.orders ++ _
    rw [ensure_advertiser_orders]
  · intro hnone
    unfold create_order
    cases hfc : find_channel (ensure_advertiser req.buyer_telegram_id db).1
        req.channel_id with
    | none => exact ensure_advertiser_new_user_count _ db hnone
    | some ch => exact ensure_advertiser_new_user_count _ db hnone

theorem C3_amended_witness :
    (create_order req_c3 db_c3).2 =
      .ok (order_row req_c3 (ensure_advertiser (42 : Int) db_c3).1
        (ensure_advertiser (42 : Int) db_c3).2) ∧
    (create_order req_c3 db_c3).1.users.length = db_c3.users.length + 1 :=
  ⟨((C3_amended_create_order_checks_only_channel req_c3 db_c3).1 (by rfl)).1,
   (C3_amended_create_order_checks_only_channel req_c3 db_c3).2 (by rfl)⟩

/-- C6 fixture: the buyer is principal 2; the order is already paid. -/
def buyer_c6 : User :=
  { id := 1
    telegram_id := 2
    username := some "buyer"
    first_name := some "B"
    is_channel_owner := false
    is_advertiser := true }

def order_c6 : Order :=
  { id := 1
    buyer_id := 1
    channel_id := 1
    ad_type := "post"
    price := 100
    status := "paid"
    payment_method := some "simulated"
    payment_transaction_id := some "SIM1"
    creative_content := none
    creative_media_id := none
    post_url := none
    notes := none
    paid_at := some "2024-01-01T00:00:00"
    completed_at := none }

def db_c6 : DB :=
  { users := [buyer_c6]
    channels := []
    orders := [order_c6]
    next_user_id := 2
    next_channel_id := 1
    next_order_id := 2 }

def world_c6 : World :=
  { db := db_c6
    sent := []
    next_message_id := 1 }

/-- C6 is false on the code: the only buyer is telegram id 2 and the
order's status is "paid" (no longer PendingPayment), yet a cancel issued
by principal 999 succeeds and sets the status to "cancelled" — neither an
authorization check nor a status precondition rejects it. -/
theorem C6_counterexample_cancel_unauthorized :
    db_c6.users.map (fun u => u.telegram_id) = [2] ∧
    order_status db_c6 1 = some "paid" ∧
    is_ok (callback_cancel_order 999 1 db_c6).2 = true ∧
    order_status (callback_cancel_order 999 1 db_c6).1 1 = some "cancelled" := by
  decide

/-- C6 amended: neither approve nor cancel consults the acting principal
or the order's current status — both behave identically for every actor,
and cancel sets any existing order to "cancelled" whatever its prior
status. -/
theorem C6_amended_no_authorization_checks :
    ∀ (a b : Int) (oid : Nat) (db : DB) (now : String) (w : World),
      callback_cancel_order a oid db = callback_cancel_order b oid db ∧
      callback_approve_order a oid now w = callback_approve_order b oid now w ∧
      ∀ o, find_order db oid = some o →
        order_status (callback_cancel_order a oid db).1 oid = some "cancelled" := by
  intro a b oid db now w
  refine ⟨rfl, rfl, fun o h => ?_⟩
  exact order_status_after_self oid { status := some "cancelled" } db o h

theorem C6_amended_witness :
    callback_cancel_order 7 1 db_c6 = callback_cancel_order 8 1 db_c6 ∧
    order_status (callback_cancel_order 7 1 db_c6).1 1 = some "cancelled" :=
  ⟨(C6_amended_no_authorization_checks 7 8 1 db_c6 "t" world_c6).1,
   (C6_amended_no_authorization_checks 7 8 1 db_c6 "t" world_c6).2.2 order_c6 (by rfl)⟩

end AdsMarket
